import Mathlib

/-!
Shallow embedding of the notebook `src/nbinteraction.ipynb`.

The notebook builds one pandas dataframe of synthetic monthly time-series
data (cell 2), styles it (cell 4), plots it with matplotlib, seaborn,
bokeh and bqplot (cells 6, 9, 12, 15), binds dropdown callbacks
(cells 17, 18) and drives an external `TSExplorer` widget (cells 20-23).

Pandas Series values are modelled as `List ℚ` (the data is numeric),
dates as a record of calendar fields, dataframes as an index together
with named columns stored column-major, and fallible Python calls
(which raise exceptions) as `Except String` or `Option` computations.
-/

namespace NBI

/-- Calendar date, the element type of the dataframe's time index. -/
structure Date where
  year : Nat
  month : Nat
  day : Nat
deriving DecidableEq

/-- Labeled two-dimensional table of numbers: pandas `DataFrame`.
`cols` is column-major and aligned with `columns`. -/
structure DataFrame where
  index : List Date
  columns : List String
  cols : List (List ℚ)
deriving DecidableEq

/-- Source: `pandas.util.testing.makeDateIndex(nper, freq)` with
`freq='MS'`: `nper` month-start timestamps from 2000-01-01 on. -/
def makeDateIndexMS (nper : Nat) : List Date :=
  (List.range nper).map (fun i => ⟨2000 + i / 12, 1 + i % 12, 1⟩)

/-- Source: `pandas.util.testing.getCols(k)`, the first `k` letters of
`string.ascii_uppercase`, each a one-letter column name. -/
def getCols (k : Nat) : List String :=
  ("ABCDEFGHIJKLMNOPQRSTUVWXYZ".toList.take k).map Char.toString

/-- Source: `pdt.makeTimeDataFrame(freq='MS')` with `pdt.N = nper` rows
and `pdt.K = k` columns.  Each column is a time series of `randn`
draws; the draws are abstracted by the parameter `rnd j i` (column `j`,
row `i`), since only their count matters to the claims. -/
def makeTimeDataFrame (nper k : Nat) (rnd : Nat → Nat → ℚ) : DataFrame where
  index := makeDateIndexMS nper
  columns := getCols k
  cols := (List.range k).map (fun j => (List.range nper).map (fun i => rnd j i))

/-- Cell 2 of the notebook: `pdt.N = 12; pdt.K = 6;
data = pdt.makeTimeDataFrame(freq='MS')`. -/
def mkData (rnd : Nat → Nat → ℚ) : DataFrame :=
  makeTimeDataFrame 12 6 rnd

/-- Pandas `df.shape`: (number of rows, number of columns). -/
def DataFrame.shape (df : DataFrame) : Nat × Nat :=
  (df.index.length, df.columns.length)

/-- Position of a column label in `df.columns`, if present. -/
def DataFrame.colIdx (df : DataFrame) (c : String) : Option Nat :=
  df.columns.findIdx? (fun x => x == c)

/-- Pandas `df[c]`, a single-column projection; `none` models the
`KeyError` raised for a missing label. -/
def DataFrame.getCol (df : DataFrame) (c : String) : Option (List ℚ) :=
  (df.colIdx c).bind (fun j => df.cols[j]?)

/-- Sequences `f` over a list of labels, failing when any lookup fails
(the iteration pandas performs for a list-of-labels selection). -/
def lookupAll (f : String → Option (List ℚ)) : List String → Option (List (List ℚ))
  | [] => some []
  | c :: cs => (f c).bind (fun v => (lookupAll f cs).map (fun vs => v :: vs))

/-- Pandas `df[cs]` for a list of labels `cs`: the sub-dataframe with
exactly those columns, same index; `none` models `KeyError`. -/
def DataFrame.selectCols (df : DataFrame) (cs : List String) : Option DataFrame :=
  (lookupAll df.getCol cs).map (fun vs => ⟨df.index, cs, vs⟩)

/-- Pandas `df.rename(columns={old: nw})`. -/
def DataFrame.renameCol (df : DataFrame) (old nw : String) : DataFrame :=
  ⟨df.index, df.columns.map (fun c => if c = old then nw else c), df.cols⟩

/-- Python's builtin `min` applied to a pandas Series: the least value,
or a `ValueError` on an empty sequence. -/
def pymin : List ℚ → Except String ℚ
  | [] => Except.error "ValueError: min() arg is an empty sequence"
  | x :: xs => Except.ok (xs.foldl min x)

/-- Python's builtin `max` applied to a pandas Series: the greatest
value, or a `ValueError` on an empty sequence. -/
def pymax : List ℚ → Except String ℚ
  | [] => Except.error "ValueError: max() arg is an empty sequence"
  | x :: xs => Except.ok (xs.foldl max x)

/-- Source, cell 4:
`def highlight(s, func, color): is_true = s == func(s);
return [f'background-color: {color}' if v else '' for v in is_true]`.
`func` may raise (e.g. builtin `min` on an empty series), so it is
`Except`-valued and its error propagates. -/
def highlight (s : List ℚ) (func : List ℚ → Except String ℚ) (color : String) :
    Except String (List String) :=
  (func s).map (fun m =>
    s.map (fun v => if v = m then "background-color: " ++ color else ""))

/-- Source, cell 4: `hmin = functools.partial(highlight, func=min, color='red')`. -/
def hmin (s : List ℚ) : Except String (List String) :=
  highlight s pymin "red"

/-- Source, cell 4: `hmax = functools.partial(highlight, func=max, color='lime')`. -/
def hmax (s : List ℚ) : Except String (List String) :=
  highlight s pymax "lime"

/-- Sequences an `Except`-valued function over the columns, as
`df.style.apply` does; the first error aborts the rendering. -/
def styleApply (f : List ℚ → Except String (List String)) :
    List (List ℚ) → Except String (List (List String))
  | [] => Except.ok []
  | c :: cs => (f c).bind (fun v => (styleApply f cs).map (fun vs => v :: vs))

/-- Cell 4's displayed object `data.style.apply(hmin).apply(hmax)`:
per-column `hmin` styles paired with per-column `hmax` styles. -/
def styledTable (df : DataFrame) :
    Except String (List (List String) × List (List String)) :=
  (styleApply hmin df.cols).bind (fun a =>
    (styleApply hmax df.cols).map (fun b => (a, b)))

/-- Source, cell 12 and cell 15: `random.choice(data.columns)`.  The
randomness is abstracted by a draw `i`; `choice` on an empty sequence
raises `IndexError`, hence the `Option`. -/
def randomChoice (l : List String) (i : Nat) : Option String :=
  l[i % l.length]?

/-- Cell 6: `data.plot(figsize=fsize)` renders the full dataframe. -/
def matplotlibPlotData (df : DataFrame) : DataFrame := df

/-- Cell 9: `sns.lineplot(data=data, ...)` renders the full dataframe. -/
def seabornPlotData (df : DataFrame) : DataFrame := df

/-- Cell 12: the data handed to bokeh,
`ColumnDataSource(data[[col]].rename(columns={col: 'series'}))`. -/
def bokehPlotData (df : DataFrame) (col : String) : Option DataFrame :=
  (df.selectCols [col]).map (fun d => d.renameCol col "series")

/-- Cell 12 end to end: draw the random column, then build the bokeh
source from it. -/
def bokehRendered (df : DataFrame) (i : Nat) : Option DataFrame :=
  (randomChoice df.columns i).bind (fun col => bokehPlotData df col)

/-- Source, cell 15: `index_sel_dt_callback(change)`.  The brushed
selection `selector.selected` is a possibly-absent list of timestamp
strings; when it is truthy the label is set to
`re.split(r'T', str(selector.selected[0]))[0]`, the part of the ISO
timestamp before the first `T`; otherwise the label keeps its value.
The function returns the new `label.value`. -/
def index_sel_dt_callback (selected : Option (List String)) (labelValue : String) :
    String :=
  match selected with
  | none => labelValue
  | some [] => labelValue
  | some (d :: _) => String.mk (d.toList.takeWhile (fun c => c != 'T'))

/-- Cells 17 and 18: the body of `select_series(col)` plots
`series = data[col]`. -/
def select_series (df : DataFrame) (col : String) : Option (List ℚ) :=
  df.getCol col

/-- Cell 17: `@widgets.interact(col=data.columns)` offers exactly the
dataframe's column labels. -/
def interactOptions (df : DataFrame) : List String :=
  df.columns

/-- Cell 18: `widgets.Dropdown(options=data.columns, ...)` offers
exactly the dataframe's column labels. -/
def dropdownOptions (df : DataFrame) : List String :=
  df.columns

/-- Modelled from the spec: the `TSExplorer` class from the external
module `mywidgets` is not part of this repository; the spec says it
"wraps a dataframe and exposes selection state", reachable through the
constructor, a `selected_data` property and a
`reset(selected_feature=, selected_dates=)` method.  It is modelled as
the wrapped dataframe plus the two pieces of selection state. -/
structure TSExplorer where
  tdata : DataFrame
  selectedFeature : Option String
  selectedDates : Option (Date × Date)
deriving DecidableEq

/-- Modelled from the spec: `TSExplorer(data, layout=...)` wraps the
dataframe with no selection yet; the layout only affects rendering. -/
def TSExplorer.make (df : DataFrame) : TSExplorer :=
  ⟨df, none, none⟩

/-- Modelled from the spec: `tse.reset(selected_feature=sf,
selected_dates=sd)` clears the selection state named by a true keyword
argument. -/
def TSExplorer.reset (t : TSExplorer) (sf sd : Bool) : TSExplorer :=
  ⟨t.tdata, if sf then none else t.selectedFeature,
    if sd then none else t.selectedDates⟩

/-- Modelled from the spec: the `tse.selected_data` property projects
the wrapped dataframe by the selected feature, a read-only view. -/
def TSExplorer.selectedData (t : TSExplorer) : Option DataFrame :=
  match t.selectedFeature with
  | none => some t.tdata
  | some c => t.tdata.selectCols [c]

/-- Notebook kernel state after the setup cell: the dataframe `data`,
the bqplot `label` widget's value, and the `tse` widget once cell 20
has run. -/
structure NBState where
  data : DataFrame
  label : String
  tse : Option TSExplorer
deriving DecidableEq

/-- What a cell or callback displays. -/
inductive NBOutput where
  | styled (v : Except String (List (List String) × List (List String)))
  | frame (df : DataFrame)
  | optFrame (v : Option DataFrame)
  | series (v : Option (List ℚ))
  | widget

/-- Every operation the notebook performs after the setup cell: the
remaining cells, plus the widget callbacks the host's event loop can
fire (`i` abstracts a random draw, `sel` a brushed selection, `col` a
dropdown choice). -/
inductive NBOp where
  | styleCell
  | matplotlibCell
  | seabornCell
  | bokehCell (i : Nat)
  | bqplotCell (i : Nat)
  | bqplotCallback (sel : Option (List String))
  | interactCell (col : String)
  | dropdownCell (col : String)
  | tseConstruct
  | tseReadSelected
  | tseResetCell (sf sd : Bool)

/-- One step of the notebook: each operation reads the state, displays
an output, and updates only the widget parts of the state it owns
(cell 15 initialises the empty label, the callback writes the label,
cells 20 and 23 create and reset `tse`). -/
def NBOp.run : NBOp → NBState → NBState × NBOutput
  | .styleCell, st => (st, .styled (styledTable st.data))
  | .matplotlibCell, st => (st, .frame (matplotlibPlotData st.data))
  | .seabornCell, st => (st, .frame (seabornPlotData st.data))
  | .bokehCell i, st => (st, .optFrame (bokehRendered st.data i))
  | .bqplotCell i, st =>
      ({ st with label := "" },
        .series ((randomChoice st.data.columns i).bind st.data.getCol))
  | .bqplotCallback sel, st =>
      ({ st with label := index_sel_dt_callback sel st.label }, .widget)
  | .interactCell col, st => (st, .series (select_series st.data col))
  | .dropdownCell col, st => (st, .series (select_series st.data col))
  | .tseConstruct, st =>
      ({ st with tse := some (TSExplorer.make st.data) }, .widget)
  | .tseReadSelected, st =>
      (st, .optFrame (st.tse.bind TSExplorer.selectedData))
  | .tseResetCell sf sd, st =>
      let st' := { st with tse := st.tse.map (fun t => t.reset sf sd) }
      (st', .optFrame (st'.tse.bind TSExplorer.selectedData))

/-- Runs a sequence of operations, threading the state. -/
def runOps (ops : List NBOp) (st : NBState) : NBState :=
  ops.foldl (fun s op => (op.run s).1) st

/-- An operation fails when the underlying library call it displays
raises: the raised message aborts the cell. -/
def NBOutput.toExcept : NBOutput → Except String NBOutput
  | .styled (Except.error e) => Except.error e
  | .optFrame none => Except.error "KeyError"
  | .series none => Except.error "KeyError"
  | o => Except.ok o

/-- One step of the notebook in the error-propagating model: the output
is demanded, so a raising library call aborts the step. -/
def NBOp.runE (op : NBOp) (st : NBState) : Except String NBState :=
  ((op.run st).2.toExcept).map (fun _ => (op.run st).1)

/-- Runs the notebook in the error-propagating model: execution stops
at the first uncaught exception (there is no handler in any cell). -/
def runOpsE (ops : List NBOp) (st : NBState) : Except String NBState :=
  match ops with
  | [] => Except.ok st
  | op :: rest => (op.runE st).bind (fun st' => runOpsE rest st')

/-- The three documented `TSExplorer` interfaces of the spec. -/
inductive TSECall where
  | construct (layoutWidth layoutHeight : String)
  | readSelectedData
  | resetCall (selectedFeature selectedDates : Bool)
deriving DecidableEq

/-- Every access to the `TSExplorer` object in cells 20-23, in source
order: `TSExplorer(data, layout=widgets.Layout(width='980px',
height='490px'))`, the `tse.selected_data` read of cell 21,
`tse.reset(selected_feature=True, selected_dates=True)` and the
`tse.selected_data` read of cell 23.  Cells 20 and 22 additionally
display the object itself, which accesses no attribute or method. -/
def notebookTSECalls : List TSECall :=
  [.construct "980px" "490px", .readSelectedData,
    .resetCall true true, .readSelectedData]

/-- Membership in the three documented interfaces. -/
def TSECall.documented : TSECall → Bool
  | .construct _ _ => true
  | .readSelectedData => true
  | .resetCall _ _ => true

/-- A fixed trivial draw sequence, used for concrete instances. -/
def rnd0 : Nat → Nat → ℚ := fun _ _ => 0

/-- The notebook dataframe at the trivial draws. -/
def data0 : DataFrame := mkData rnd0

lemma foldl_min_le (xs : List ℚ) (a : ℚ) : xs.foldl min a ≤ a := by
  induction xs generalizing a with
  | nil => exact le_refl a
  | cons x xs ih =>
    calc (x :: xs).foldl min a = xs.foldl min (min a x) := rfl
    _ ≤ min a x := ih _
    _ ≤ a := min_le_left a x

lemma foldl_min_le_mem (xs : List ℚ) (a y : ℚ) (hy : y ∈ xs) :
    xs.foldl min a ≤ y := by
  induction xs generalizing a with
  | nil => cases hy
  | cons x xs ih =>
    rcases List.mem_cons.mp hy with rfl | hy'
    · exact le_trans (foldl_min_le xs (min a y)) (min_le_right a y)
    · exact ih _ hy'

lemma foldl_min_choice (xs : List ℚ) (a : ℚ) :
    xs.foldl min a = a ∨ xs.foldl min a ∈ xs := by
  induction xs generalizing a with
  | nil => exact Or.inl rfl
  | cons x xs ih =>
    rcases ih (min a x) with heq | hmem
    · rcases min_choice a x with h | h
      · exact Or.inl (by rw [show (x :: xs).foldl min a = xs.foldl min (min a x) from rfl, heq, h])
      · refine Or.inr (List.mem_cons.mpr (Or.inl ?_))
        rw [show (x :: xs).foldl min a = xs.foldl min (min a x) from rfl, heq, h]
    · exact Or.inr (List.mem_cons.mpr (Or.inr hmem))

lemma foldl_max_ge (xs : List ℚ) (a : ℚ) : a ≤ xs.foldl max a := by
  induction xs generalizing a with
  | nil => exact le_refl a
  | cons x xs ih =>
    calc a ≤ max a x := le_max_left a x
    _ ≤ xs.foldl max (max a x) := ih _
    _ = (x :: xs).foldl max a := rfl

lemma foldl_max_ge_mem (xs : List ℚ) (a y : ℚ) (hy : y ∈ xs) :
    y ≤ xs.foldl max a := by
  induction xs generalizing a with
  | nil => cases hy
  | cons x xs ih =>
    rcases List.mem_cons.mp hy with rfl | hy'
    · exact le_trans (le_max_right a y) (foldl_max_ge xs (max a y))
    · exact ih _ hy'

lemma foldl_max_choice (xs : List ℚ) (a : ℚ) :
    xs.foldl max a = a ∨ xs.foldl max a ∈ xs := by
  induction xs generalizing a with
  | nil => exact Or.inl rfl
  | cons x xs ih =>
    rcases ih (max a x) with heq | hmem
    · rcases max_choice a x with h | h
      · exact Or.inl (by rw [show (x :: xs).foldl max a = xs.foldl max (max a x) from rfl, heq, h])
      · refine Or.inr (List.mem_cons.mpr (Or.inl ?_))
        rw [show (x :: xs).foldl max a = xs.foldl max (max a x) from rfl, heq, h]
    · exact Or.inr (List.mem_cons.mpr (Or.inr hmem))

/-- Python's `min` on a non-empty series returns an attained lower
bound of the values. -/
lemma pymin_spec (s : List ℚ) (hs : s ≠ []) :
    ∃ m, pymin s = Except.ok m ∧ m ∈ s ∧ ∀ y ∈ s, m ≤ y := by
  cases s with
  | nil => exact absurd rfl hs
  | cons x xs =>
    refine ⟨xs.foldl min x, rfl, ?_, ?_⟩
    · rcases foldl_min_choice xs x with h | h
      · rw [h]
        exact List.mem_cons_self x xs
      · exact List.mem_cons.mpr (Or.inr h)
    · intro y hy
      rcases List.mem_cons.mp hy with rfl | hy'
      · exact foldl_min_le xs y
      · exact foldl_min_le_mem xs x y hy'

/-- Python's `max` on a non-empty series returns an attained upper
bound of the values. -/
lemma pymax_spec (s : List ℚ) (hs : s ≠ []) :
    ∃ m, pymax s = Except.ok m ∧ m ∈ s ∧ ∀ y ∈ s, y ≤ m := by
  cases s with
  | nil => exact absurd rfl hs
  | cons x xs =>
    refine ⟨xs.foldl max x, rfl, ?_, ?_⟩
    · rcases foldl_max_choice xs x with h | h
      · rw [h]
        exact List.mem_cons_self x xs
      · exact List.mem_cons.mpr (Or.inr h)
    · intro y hy
      rcases List.mem_cons.mp hy with rfl | hy'
      · exact foldl_max_ge xs y
      · exact foldl_max_ge_mem xs x y hy'

/-- The cell marked with a non-empty css string by the comparison
against an attained lower bound `m` is exactly a cell holding a least
value. -/
lemma mark_iff_min (s : List ℚ) (m : ℚ) (str : String) (hstr : str ≠ "")
    (i : Nat) (h : i < s.length) (hmem : m ∈ s) (hlb : ∀ y ∈ s, m ≤ y) :
    ((s.map (fun v => if v = m then str else ""))[i]? = some str ↔
      ∀ y ∈ s, s[i] ≤ y) := by
  rw [List.getElem?_map, List.getElem?_eq_getElem h]
  constructor
  · intro he
    by_cases hc : s[i] = m
    · intro y hy
      exact hc ▸ hlb y hy
    · simp only [Option.map_some', hc, if_false, Option.some.injEq] at he
      exact absurd he.symm hstr
  · intro hb
    have him : s[i] = m :=
      le_antisymm (hb m hmem) (hlb s[i] (List.getElem_mem h))
    simp [him]

/-- The cell marked with a non-empty css string by the comparison
against an attained upper bound `m` is exactly a cell holding a
greatest value. -/
lemma mark_iff_max (s : List ℚ) (m : ℚ) (str : String) (hstr : str ≠ "")
    (i : Nat) (h : i < s.length) (hmem : m ∈ s) (hub : ∀ y ∈ s, y ≤ m) :
    ((s.map (fun v => if v = m then str else ""))[i]? = some str ↔
      ∀ y ∈ s, y ≤ s[i]) := by
  rw [List.getElem?_map, List.getElem?_eq_getElem h]
  constructor
  · intro he
    by_cases hc : s[i] = m
    · intro y hy
      exact hc ▸ hub y hy
    · simp only [Option.map_some', hc, if_false, Option.some.injEq] at he
      exact absurd he.symm hstr
  · intro hb
    have him : s[i] = m :=
      le_antisymm (hub s[i] (List.getElem_mem h)) (hb m hmem)
    simp [him]

/-- C1: for every series `s`, selector `func` and color, `highlight`
returns a list of the same length as `s` whose `i`-th entry is
`background-color: {color}` exactly when `s[i] = func s` and `''`
otherwise; `hmin` (func = `min`, color `red`) thereby marks exactly
the cells holding a least value and `hmax` (func = `max`, color
`lime`) exactly the cells holding a greatest value. -/
theorem highlight_marks_extrema (s : List ℚ) (func : List ℚ → ℚ)
    (color : String) (i : Nat) (h : i < s.length) :
    ∃ l, highlight s (fun t => Except.ok (func t)) color = Except.ok l ∧
      l.length = s.length ∧
      l[i]? = some (if s[i] = func s then "background-color: " ++ color else "") ∧
      (∃ lmin, hmin s = Except.ok lmin ∧
        (lmin[i]? = some "background-color: red" ↔ ∀ y ∈ s, s[i] ≤ y)) ∧
      (∃ lmax, hmax s = Except.ok lmax ∧
        (lmax[i]? = some "background-color: lime" ↔ ∀ y ∈ s, y ≤ s[i])) := by
  have hs : s ≠ [] := by
    intro he
    rw [he] at h
    exact Nat.not_lt_zero i h
  obtain ⟨m, hm, hmmem, hmlb⟩ := pymin_spec s hs
  obtain ⟨M, hM, hMmem, hMub⟩ := pymax_spec s hs
  refine ⟨s.map (fun v => if v = func s then "background-color: " ++ color else ""),
    rfl, List.length_map _ _, ?_, ?_, ?_⟩
  · simp [List.getElem?_eq_getElem h]
  · refine ⟨s.map (fun v => if v = m then "background-color: red" else ""), ?_, ?_⟩
    · simp [hmin, highlight, hm, Except.map]
    · exact mark_iff_min s m "background-color: red" (by decide) i h hmmem hmlb
  · refine ⟨s.map (fun v => if v = M then "background-color: lime" else ""), ?_, ?_⟩
    · simp [hmax, highlight, hM, Except.map]
    · exact mark_iff_max s M "background-color: lime" (by decide) i h hMmem hMub

/-- Witness for C1 at the series `[2, 1, 3]`, the head selector, color
`blue` and position 1. -/
theorem highlight_marks_extrema_witness :
    ∃ l, highlight [2, 1, 3] (fun t => Except.ok (t.headD 0)) "blue" = Except.ok l ∧
      l.length = ([2, 1, 3] : List ℚ).length ∧
      l[1]? = some (if ([2, 1, 3] : List ℚ)[1] = ([2, 1, 3] : List ℚ).headD 0 then
        "background-color: " ++ "blue" else "") ∧
      (∃ lmin, hmin [2, 1, 3] = Except.ok lmin ∧
        (lmin[1]? = some "background-color: red" ↔
          ∀ y ∈ ([2, 1, 3] : List ℚ), ([2, 1, 3] : List ℚ)[1] ≤ y)) ∧
      (∃ lmax, hmax [2, 1, 3] = Except.ok lmax ∧
        (lmax[1]? = some "background-color: lime" ↔
          ∀ y ∈ ([2, 1, 3] : List ℚ), y ≤ ([2, 1, 3] : List ℚ)[1])) :=
  highlight_marks_extrema [2, 1, 3] (fun t => t.headD 0) "blue" 1 (by decide)

lemma run_preserves_data (op : NBOp) (st : NBState) :
    (op.run st).1.data = st.data := by
  cases op <;> rfl

lemma runOps_data (ops : List NBOp) (st : NBState) :
    (runOps ops st).data = st.data := by
  induction ops generalizing st with
  | nil => rfl
  | cons op rest ih =>
    calc (runOps (op :: rest) st).data = (runOps rest (op.run st).1).data := rfl
    _ = (op.run st).1.data := ih _
    _ = st.data := run_preserves_data op st

/-- C2: the dataframe is never mutated after the setup cell: running
any sequence of the notebook's subsequent operations (styling,
plotting, random-column cells, widget callbacks, `TSExplorer`
construction, reads and resets) leaves the dataframe, and in
particular its index, columns and values, unchanged. -/
theorem notebook_never_mutates_data (ops : List NBOp) (st : NBState) :
    (runOps ops st).data = st.data ∧
    (runOps ops st).data.index = st.data.index ∧
    (runOps ops st).data.columns = st.data.columns ∧
    (runOps ops st).data.cols = st.data.cols := by
  refine ⟨runOps_data ops st, ?_, ?_, ?_⟩ <;> rw [runOps_data ops st]

/-- C4: with `pdt.N = 12` and `pdt.K = 6`, the setup cell produces a
labeled table of 12 rows and 6 columns whose row index is the monthly
(month-start) timestamps of the year 2000 and whose columns are the
named series `A` to `F`, each holding 12 numbers. -/
theorem make_time_data_frame_shape (rnd : Nat → Nat → ℚ) :
    (mkData rnd).shape = (12, 6) ∧
    (mkData rnd).columns = ["A", "B", "C", "D", "E", "F"] ∧
    (mkData rnd).index =
      (List.range 12).map (fun i => Date.mk 2000 (1 + i) 1) ∧
    (∀ d ∈ (mkData rnd).index, d.day = 1) ∧
    (mkData rnd).cols.length = 6 ∧
    (∀ c ∈ (mkData rnd).cols, c.length = 12) := by
  refine ⟨rfl, rfl, ?_, ?_, rfl, ?_⟩
  · show makeDateIndexMS 12 = _
    decide
  · show ∀ d ∈ makeDateIndexMS 12, d.day = 1
    decide
  intro c hc
  simp only [mkData, makeTimeDataFrame, List.mem_map] at hc
  obtain ⟨j, _, rfl⟩ := hc
  simp

/-- C7: every access to the `TSExplorer` object in the notebook is one
of the three documented interfaces: the constructor with a layout, a
`selected_data` property read, or a `reset` call with the keyword
arguments `selected_feature` and `selected_dates`; the trace contains
exactly one construction, two reads and one reset with both keywords
set. -/
theorem tse_only_three_interfaces :
    (∀ c ∈ notebookTSECalls, c.documented = true) ∧
    notebookTSECalls.all TSECall.documented = true ∧
    (notebookTSECalls.filter (fun c => c matches TSECall.construct _ _) =
      [TSECall.construct "980px" "490px"]) ∧
    (notebookTSECalls.count TSECall.readSelectedData = 2) ∧
    (notebookTSECalls.filter (fun c => c matches TSECall.resetCall _ _) =
      [TSECall.resetCall true true]) := by
  refine ⟨?_, rfl, rfl, rfl, rfl⟩
  intro c hc
  fin_cases hc <;> rfl

lemma takeWhile_boundary (p : Char → Bool) (l : List Char) (c : Char)
    (h : l[(l.takeWhile p).length]? = some c) : p c = false := by
  induction l with
  | nil => simp at h
  | cons x xs ih =>
    by_cases hp : p x
    · rw [List.takeWhile_cons, if_pos hp, List.length_cons,
        List.getElem?_cons_succ] at h
      exact ih h
    · rw [List.takeWhile_cons, if_neg hp] at h
      simp only [List.length_nil, List.getElem?_cons_zero,
        Option.some.injEq] at h
      simp only [Bool.not_eq_true] at hp
      exact h ▸ hp

/-- C8: on a change event, the bqplot callback leaves the label
unchanged when the brushed selection is absent or empty, and otherwise
sets the label to the part of the first selected timestamp's string
before the first `T` (its calendar-date part); as a notebook operation
it touches neither the dataframe nor the `TSExplorer` state. -/
theorem callback_sets_label_to_date (lv d : String) (rest : List String)
    (st : NBState) (sel : Option (List String)) :
    index_sel_dt_callback none lv = lv ∧
    index_sel_dt_callback (some []) lv = lv ∧
    (index_sel_dt_callback (some (d :: rest)) lv).toList =
      d.toList.takeWhile (fun c => c != 'T') ∧
    (∀ c ∈ (index_sel_dt_callback (some (d :: rest)) lv).toList, c ≠ 'T') ∧
    List.IsPrefix (index_sel_dt_callback (some (d :: rest)) lv).toList d.toList ∧
    (∀ c, d.toList[(index_sel_dt_callback (some (d :: rest)) lv).toList.length]? =
      some c → c = 'T') ∧
    ((NBOp.bqplotCallback sel).run st).1.data = st.data ∧
    ((NBOp.bqplotCallback sel).run st).1.tse = st.tse ∧
    ((NBOp.bqplotCallback sel).run st).1.label =
      index_sel_dt_callback sel st.label := by
  refine ⟨rfl, rfl, rfl, ?_, ?_, ?_, rfl, rfl, rfl⟩
  · intro c hc
    have := List.mem_takeWhile_imp (p := fun c => c != 'T')
      (l := d.toList) (x := c) hc
    simpa using this
  · exact List.takeWhile_prefix _
  · intro c hc
    have hb := takeWhile_boundary (fun c => c != 'T') d.toList c hc
    simpa using hb

/-- The notebook dataframe's `j`-th column, for each of its six
positions: its label, the single-label projections that read it, and
the bokeh source built from it. -/
lemma mkData_proj (rnd : Nat → Nat → ℚ) (j : Nat) (hj : j < 6) :
    ∃ col, (mkData rnd).columns[j]? = some col ∧
      col ∈ (mkData rnd).columns ∧
      (mkData rnd).getCol col = some ((List.range 12).map (fun r => rnd j r)) ∧
      (mkData rnd).selectCols [col] =
        some ⟨(mkData rnd).index, [col],
          [(List.range 12).map (fun r => rnd j r)]⟩ ∧
      bokehPlotData (mkData rnd) col =
        some ⟨(mkData rnd).index, ["series"],
          [(List.range 12).map (fun r => rnd j r)]⟩ := by
  interval_cases j
  · exact ⟨"A", rfl, show "A" ∈ getCols 6 by decide, rfl, rfl, rfl⟩
  · exact ⟨"B", rfl, show "B" ∈ getCols 6 by decide, rfl, rfl, rfl⟩
  · exact ⟨"C", rfl, show "C" ∈ getCols 6 by decide, rfl, rfl, rfl⟩
  · exact ⟨"D", rfl, show "D" ∈ getCols 6 by decide, rfl, rfl, rfl⟩
  · exact ⟨"E", rfl, show "E" ∈ getCols 6 by decide, rfl, rfl, rfl⟩
  · exact ⟨"F", rfl, show "F" ∈ getCols 6 by decide, rfl, rfl, rfl⟩

/-- C10: `random.choice(data.columns)` draws over the six-element,
hence non-empty, column list, so the drawn label is always a member of
`data.columns`, and both the bokeh projection `data[[col]]` and the
bqplot projection `data[col]` succeed on it (no `KeyError`). -/
theorem random_column_always_valid (rnd : Nat → Nat → ℚ) (i : Nat) :
    (mkData rnd).columns.length = 6 ∧
    ∃ col, randomChoice (mkData rnd).columns i = some col ∧
      col ∈ (mkData rnd).columns ∧
      (∃ d, (mkData rnd).selectCols [col] = some d) ∧
      (∃ s, (mkData rnd).getCol col = some s) ∧
      (∃ d, bokehPlotData (mkData rnd) col = some d) := by
  refine ⟨rfl, ?_⟩
  have hj : i % 6 < 6 := Nat.mod_lt i (by decide)
  obtain ⟨col, h1, h2, h3, h4, h5⟩ := mkData_proj rnd (i % 6) hj
  exact ⟨col, h1, h2, ⟨_, h4⟩, ⟨_, h3⟩, ⟨_, h5⟩⟩

/-- C3 counterexample: on the notebook dataframe (here at the trivial
draws), the bokeh cell never renders the full dataframe: whatever
column the random draw picks, the bokeh source is a single renamed
column, not the dataframe generated in the setup cell. -/
theorem bokeh_cell_not_full_frame :
    ((List.range 6).all
      (fun i => decide (bokehRendered data0 i ≠ some data0)) = true) ∧
    bokehRendered data0 0 ≠ some data0 := by
  exact ⟨by decide, by decide⟩

/-- C3 (amended): the notebook plots the dataframe with three
independent charting libraries, but only the matplotlib and seaborn
steps render the full dataframe; the bokeh step renders exactly one
randomly chosen column of it, relabeled `series`, over the same index. -/
theorem three_libraries_plot_data (rnd : Nat → Nat → ℚ) (i : Nat) :
    matplotlibPlotData (mkData rnd) = mkData rnd ∧
    seabornPlotData (mkData rnd) = mkData rnd ∧
    ∃ col d, randomChoice (mkData rnd).columns i = some col ∧
      col ∈ (mkData rnd).columns ∧
      bokehRendered (mkData rnd) i = some d ∧
      bokehPlotData (mkData rnd) col = some d ∧
      d.columns = ["series"] ∧
      d.index = (mkData rnd).index ∧
      d.cols = [(List.range 12).map (fun r => rnd (i % 6) r)] := by
  refine ⟨rfl, rfl, ?_⟩
  have hj : i % 6 < 6 := Nat.mod_lt i (by decide)
  obtain ⟨col, h1, h2, h3, h4, h5⟩ := mkData_proj rnd (i % 6) hj
  refine ⟨col, _, h1, h2, ?_, h5, rfl, rfl, rfl⟩
  show ((mkData rnd).columns[i % 6]?).bind
    (fun c => bokehPlotData (mkData rnd) c) = _
  rw [h1]
  exact h5

/-- C5: the dropdown-driven callback plots exactly the selected
column: for every label in `data.columns` the lookup `data[col]`
succeeds and yields the column's series, the cell renders that series
and changes no state, and both widget cells offer exactly
`data.columns` as options. -/
theorem select_series_spec (rnd : Nat → Nat → ℚ) (col : String)
    (h : col ∈ (mkData rnd).columns) :
    (∃ j, j < 6 ∧ (mkData rnd).columns[j]? = some col ∧
      select_series (mkData rnd) col =
        some ((List.range 12).map (fun r => rnd j r)) ∧
      (mkData rnd).cols[j]? =
        some ((List.range 12).map (fun r => rnd j r))) ∧
    interactOptions (mkData rnd) = (mkData rnd).columns ∧
    dropdownOptions (mkData rnd) = (mkData rnd).columns ∧
    (∀ lv t, (NBOp.interactCell col).run ⟨mkData rnd, lv, t⟩ =
        (⟨mkData rnd, lv, t⟩, NBOutput.series (select_series (mkData rnd) col)) ∧
      (NBOp.dropdownCell col).run ⟨mkData rnd, lv, t⟩ =
        (⟨mkData rnd, lv, t⟩, NBOutput.series (select_series (mkData rnd) col))) := by
  refine ⟨?_, rfl, rfl, fun lv t => ⟨rfl, rfl⟩⟩
  have h' : col ∈ getCols 6 := h
  fin_cases h'
  · exact ⟨0, by decide, rfl, rfl, rfl⟩
  · exact ⟨1, by decide, rfl, rfl, rfl⟩
  · exact ⟨2, by decide, rfl, rfl, rfl⟩
  · exact ⟨3, by decide, rfl, rfl, rfl⟩
  · exact ⟨4, by decide, rfl, rfl, rfl⟩
  · exact ⟨5, by decide, rfl, rfl, rfl⟩

/-- Witness for C5 at the trivial draws and the column `C`. -/
theorem select_series_spec_witness :
    (∃ j, j < 6 ∧ (mkData rnd0).columns[j]? = some "C" ∧
      select_series (mkData rnd0) "C" =
        some ((List.range 12).map (fun r => rnd0 j r)) ∧
      (mkData rnd0).cols[j]? =
        some ((List.range 12).map (fun r => rnd0 j r))) ∧
    interactOptions (mkData rnd0) = (mkData rnd0).columns ∧
    dropdownOptions (mkData rnd0) = (mkData rnd0).columns ∧
    (∀ lv t, (NBOp.interactCell "C").run ⟨mkData rnd0, lv, t⟩ =
        (⟨mkData rnd0, lv, t⟩, NBOutput.series (select_series (mkData rnd0) "C")) ∧
      (NBOp.dropdownCell "C").run ⟨mkData rnd0, lv, t⟩ =
        (⟨mkData rnd0, lv, t⟩, NBOutput.series (select_series (mkData rnd0) "C"))) :=
  select_series_spec rnd0 "C" (show "C" ∈ getCols 6 by decide)

lemma runOpsE_append (l1 l2 : List NBOp) (st : NBState) :
    runOpsE (l1 ++ l2) st =
      (runOpsE l1 st).bind (fun st' => runOpsE l2 st') := by
  induction l1 generalizing st with
  | nil => rfl
  | cons op rest ih =>
    show (op.runE st).bind _ = ((op.runE st).bind _).bind _
    cases op.runE st with
    | error e => rfl
    | ok st' => exact ih st'

/-- C6: the notebook contains no exception handling: once any cell's
underlying library call raises (for example `min` inside `highlight`
applied to an empty series), the error aborts that cell and the run of
every remaining cell, with no state repaired in response — the final
outcome is exactly the raised error. -/
theorem errors_propagate_uncaught (pre post : List NBOp) (op : NBOp)
    (st st' : NBState) (e : String)
    (h1 : runOpsE pre st = Except.ok st')
    (h2 : op.runE st' = Except.error e) :
    runOpsE (pre ++ op :: post) st = Except.error e ∧
    hmin [] = Except.error "ValueError: min() arg is an empty sequence" ∧
    hmax [] = Except.error "ValueError: max() arg is an empty sequence" := by
  refine ⟨?_, rfl, rfl⟩
  rw [runOpsE_append, h1]
  show (op.runE st').bind _ = _
  rw [h2]
  rfl

/-- Witness for C6: styling a dataframe that has an empty column
raises `min`'s `ValueError`, which aborts the rest of the notebook. -/
theorem errors_propagate_uncaught_witness :
    runOpsE ([] ++ NBOp.styleCell :: [NBOp.matplotlibCell])
        ⟨⟨[], ["A"], [[]]⟩, "", none⟩ =
      Except.error "ValueError: min() arg is an empty sequence" ∧
    hmin [] = Except.error "ValueError: min() arg is an empty sequence" ∧
    hmax [] = Except.error "ValueError: max() arg is an empty sequence" :=
  errors_propagate_uncaught [] [NBOp.matplotlibCell] NBOp.styleCell
    ⟨⟨[], ["A"], [[]]⟩, "", none⟩ ⟨⟨[], ["A"], [[]]⟩, "", none⟩
    "ValueError: min() arg is an empty sequence" rfl rfl

/-- C9: on a non-empty series the `min` and `max` calls inside
`highlight` cannot fail and return attained extrema, so `hmin` marks
at least one cell red and `hmax` at least one cell lime; on the empty
series both raise. -/
theorem hmin_hmax_mark_some_cell (s : List ℚ) (hs : s ≠ []) :
    (∃ m, pymin s = Except.ok m ∧ m ∈ s ∧ ∀ y ∈ s, m ≤ y) ∧
    (∃ m, pymax s = Except.ok m ∧ m ∈ s ∧ ∀ y ∈ s, y ≤ m) ∧
    (∃ l, hmin s = Except.ok l ∧ l.length = s.length ∧
      ∃ i : Nat, l[i]? = some "background-color: red") ∧
    (∃ l, hmax s = Except.ok l ∧ l.length = s.length ∧
      ∃ i : Nat, l[i]? = some "background-color: lime") ∧
    hmin [] = Except.error "ValueError: min() arg is an empty sequence" ∧
    hmax [] = Except.error "ValueError: max() arg is an empty sequence" := by
  obtain ⟨m, hm, hmmem, hmlb⟩ := pymin_spec s hs
  obtain ⟨M, hM, hMmem, hMub⟩ := pymax_spec s hs
  obtain ⟨im, him, hsm⟩ := List.getElem_of_mem hmmem
  obtain ⟨iM, hiM, hsM⟩ := List.getElem_of_mem hMmem
  refine ⟨⟨m, hm, hmmem, hmlb⟩, ⟨M, hM, hMmem, hMub⟩, ?_, ?_, rfl, rfl⟩
  · refine ⟨s.map (fun v => if v = m then "background-color: red" else ""),
      ?_, List.length_map _ _, im, ?_⟩
    · simp [hmin, highlight, hm, Except.map]
    · rw [List.getElem?_map, List.getElem?_eq_getElem him,
        Option.map_some', if_pos hsm]
  · refine ⟨s.map (fun v => if v = M then "background-color: lime" else ""),
      ?_, List.length_map _ _, iM, ?_⟩
    · simp [hmax, highlight, hM, Except.map]
    · rw [List.getElem?_map, List.getElem?_eq_getElem hiM,
        Option.map_some', if_pos hsM]

/-- Witness for C9 at the series `[3, 1, 2]`. -/
theorem hmin_hmax_mark_some_cell_witness :
    (∃ m, pymin [3, 1, 2] = Except.ok m ∧ m ∈ ([3, 1, 2] : List ℚ) ∧
      ∀ y ∈ ([3, 1, 2] : List ℚ), m ≤ y) ∧
    (∃ m, pymax [3, 1, 2] = Except.ok m ∧ m ∈ ([3, 1, 2] : List ℚ) ∧
      ∀ y ∈ ([3, 1, 2] : List ℚ), y ≤ m) ∧
    (∃ l, hmin [3, 1, 2] = Except.ok l ∧ l.length = ([3, 1, 2] : List ℚ).length ∧
      ∃ i : Nat, l[i]? = some "background-color: red") ∧
    (∃ l, hmax [3, 1, 2] = Except.ok l ∧ l.length = ([3, 1, 2] : List ℚ).length ∧
      ∃ i : Nat, l[i]? = some "background-color: lime") ∧
    hmin [] = Except.error "ValueError: min() arg is an empty sequence" ∧
    hmax [] = Except.error "ValueError: max() arg is an empty sequence" :=
  hmin_hmax_mark_some_cell [3, 1, 2] (by decide)

end NBI
